import Mathlib

/-!
Verification development for the DCAFlights dashboard core:
the data loader (`src/data.py`, `get_data`) and the shared filter pipeline
(`src/components/filter_component.py`, `filter_data`), together with the
data-cards aggregation consumer (`src/components/data_cards.py`, `update`).

The pandas dataframes are embedded as lists of `Row` records; nullable
(`Int64` / object) cells are `Option`-valued, with `none` playing the role
of `pd.NA`/`NaT`.  Boolean-mask selection `df[mask]` is `List.filter` where
a mask cell that is NA selects `false` (pandas treats NA as False when a
nullable boolean mask is used for indexing).  Python exceptions raised by
the modelled code paths (`KeyError` from `filters[...]` on an absent key,
`TypeError` from `len(None)`/`float(None)`, `ValueError` from
`float("...")` on a non-numeric string) are an `Except` error channel.
Calendar dates are encoded as the natural number `y*10000 + m*100 + d`,
so numeric order coincides with chronological order for valid dates.
Logging calls (`logger.debug`, `logger.warning`) have no effect on the
data flow and are not modelled.
-/

deriving instance DecidableEq for Except

namespace DCAFlights

/-- Python atomic values as they occur inside filter lists and as range
bounds: integers (e.g. a year from the dropdown) and strings. -/
inductive PyVal where
  | vint (i : Int)
  | vstr (s : String)

deriving DecidableEq

/-- Python exceptions raised on the modelled paths of `filter_data`:
`KeyError` (absent key in the `filters` kwargs bag), `TypeError`
(`len(None)`, `float(None)`), `ValueError` (`float` of a non-numeric
string). -/
inductive PyErr where
  | keyError
  | typeError
  | valueError

deriving DecidableEq

/-- One row of the canonical table produced by `get_data`, restricted to the
columns read by `filter_data` and by the data-cards consumer.  String
(object) columns and nullable `Int64` columns are `Option`-valued; `date`
is the `y*10000+m*100+d` encoding of the parsed datetime (`none` = `NaT`);
the three `*_bool` columns are the derived nullable-boolean columns
(`df[flag] == 1` on an `Int64` column gives NA where the flag is NA). -/
structure Row where
  year : Option Int
  month_name : Option String
  day_of_week : Option String
  airline_name : Option String
  dest : Option String
  time_period : Option String
  delay_category : Option String
  distance : Option Int
  arr_delay : Option Int
  date : Option Nat
  dep_delay_flag : Option Int
  arr_delay_flag : Option Int
  on_time : Option Int
  dep_delay_flag_bool : Option Bool
  arr_delay_flag_bool : Option Bool
  on_time_bool : Option Bool

deriving DecidableEq

/-- Argument delivered for one multi-select filter dimension: the key may be
absent from the kwargs bag (`filters["k"]` then raises `KeyError`), the
value may be Python `None` (`len(None)` then raises `TypeError`), or it is
a list of selected values. -/
inductive MSelArg where
  | absent
  | noneVal
  | vals (l : List PyVal)

deriving DecidableEq

/-- Argument delivered for one scalar range bound (distance bound or date
bound): absent key, Python `None`, or a scalar value. -/
inductive BoundArg where
  | absent
  | noneVal
  | val (v : PyVal)

deriving DecidableEq

/-- The `filters` kwargs bag of `filter_data`, one field per filter
dimension, named as the keyword arguments are named in
`FILTER_CALLBACK_INPUTS`. -/
structure FilterSet where
  year : MSelArg
  airline : MSelArg
  destination_airport : MSelArg
  month : MSelArg
  day_of_week : MSelArg
  time_period : MSelArg
  delay_category : MSelArg
  flight_distance_min : BoundArg
  flight_distance_max : BoundArg
  date_start : BoundArg
  date_end : BoundArg

deriving DecidableEq

/-- Numeric value of a decimal digit character. -/
def dval (c : Char) : Nat := c.toNat - 48

/-- Number of days in a month, with leap-year rule for February. -/
def daysInMonth (y m : Nat) : Nat :=
  if m = 2 then (if (y % 4 = 0 ∧ y % 100 ≠ 0) ∨ y % 400 = 0 then 29 else 28)
  else if m = 4 ∨ m = 6 ∨ m = 9 ∨ m = 11 then 30 else 31

/-- Build the encoded date when the month/day ranges are valid. -/
def mkDate (y m d : Nat) : Option Nat :=
  if 1 ≤ m ∧ m ≤ 12 ∧ 1 ≤ d ∧ d ≤ daysInMonth y m then some (y * 10000 + m * 100 + d)
  else none

/-- Parse of an ISO `YYYY-MM-DD` date string, as done by
`pd.to_datetime(s, format="%Y-%m-%d")` / `datetime.fromisoformat` at day
granularity (month and day may be unpadded, as `strptime` accepts).
Strings in any other format are out of this model and parse to `none`;
every date string the dashboard itself produces is ISO `YYYY-MM-DD`. -/
def parseYMD (s : String) : Option Nat :=
  match s.toList with
  | [a, b, c, e, '-', f, g, '-', h, i] =>
    if [a, b, c, e, f, g, h, i].all Char.isDigit then
      mkDate (1000 * dval a + 100 * dval b + 10 * dval c + dval e)
        (10 * dval f + dval g) (10 * dval h + dval i)
    else none
  | [a, b, c, e, '-', f, '-', h, i] =>
    if [a, b, c, e, f, h, i].all Char.isDigit then
      mkDate (1000 * dval a + 100 * dval b + 10 * dval c + dval e)
        (dval f) (10 * dval h + dval i)
    else none
  | [a, b, c, e, '-', f, g, '-', h] =>
    if [a, b, c, e, f, g, h].all Char.isDigit then
      mkDate (1000 * dval a + 100 * dval b + 10 * dval c + dval e)
        (10 * dval f + dval g) (dval h)
    else none
  | [a, b, c, e, '-', f, '-', h] =>
    if [a, b, c, e, f, h].all Char.isDigit then
      mkDate (1000 * dval a + 100 * dval b + 10 * dval c + dval e)
        (dval f) (dval h)
    else none
  | _ => none

/-- Value of a digit list read as a decimal numeral (empty list reads 0). -/
def digitsVal (cs : List Char) : Nat := cs.foldl (fun n c => 10 * n + dval c) 0

/-- Model of Python `float(x)` applied to a string: optional sign, decimal
digits, optional fractional part.  Exponent/`inf`/`nan` spellings are out
of this model (no claim exercises them); any string this parser rejects
makes Python's `float` raise `ValueError` as well or is out of model. -/
def parseFloat? (s : String) : Option ℚ :=
  match s.toList with
  | [] => none
  | cs =>
    let sgn : ℚ × List Char :=
      match cs with
      | '-' :: r => (-1, r)
      | '+' :: r => (1, r)
      | _ => (1, cs)
    match splitDot sgn.2 with
    | (ip, none) =>
      if ip ≠ [] ∧ ip.all Char.isDigit then some (sgn.1 * digitsVal ip) else none
    | (ip, some fp) =>
      if (ip ≠ [] ∨ fp ≠ []) ∧ ip.all Char.isDigit ∧ fp.all Char.isDigit then
        some (sgn.1 * ((digitsVal ip : ℚ) + (digitsVal fp : ℚ) / (10 : ℚ) ^ fp.length))
      else none
where
  /-- Split a character list at its first dot. -/
  splitDot : List Char → List Char × Option (List Char)
    | [] => ([], none)
    | '.' :: rest => ([], some rest)
    | c :: rest =>
      let p := splitDot rest
      (c :: p.1, p.2)

/-- Column accessor for the year filter step: the `year` column is `Int64`,
so its cells compare as Python integers in `isin`. -/
def yearCol (r : Row) : Option PyVal := r.year.map PyVal.vint

/-- Column accessor for the airline filter step (`airline_name`, object). -/
def airlineCol (r : Row) : Option PyVal := r.airline_name.map PyVal.vstr

/-- Column accessor for the destination filter step (`dest`, object). -/
def destCol (r : Row) : Option PyVal := r.dest.map PyVal.vstr

/-- Column accessor for the month filter step (`month_name`, object). -/
def monthNameCol (r : Row) : Option PyVal := r.month_name.map PyVal.vstr

/-- Column accessor for the day-of-week filter step (`day_of_week`). -/
def dayOfWeekCol (r : Row) : Option PyVal := r.day_of_week.map PyVal.vstr

/-- Column accessor for the time-period filter step (`time_period`). -/
def timePeriodCol (r : Row) : Option PyVal := r.time_period.map PyVal.vstr

/-- Column accessor for the delay-category filter step (`delay_category`). -/
def delayCategoryCol (r : Row) : Option PyVal := r.delay_category.map PyVal.vstr

/-- Row predicate of `df[col].isin(l)`: a cell matches when its value is a
member of `l` (exact Python equality, no type coercion: the `Int64` value
`2022` does not match the string `"2022"`); an NA cell never matches. -/
def isinPred (col : Row → Option PyVal) (l : List PyVal) (r : Row) : Bool :=
  match col r with
  | some v => decide (v ∈ l)
  | none => false

/-- One multi-select filter step of `filter_data`, modelling

`if len(filters[k]) > 0 and "all" not in filters[k]: df = df[df[c].isin(filters[k])]`

An absent key raises `KeyError` at `filters[k]`; a Python `None` value
raises `TypeError` at `len(None)`; otherwise the dimension is skipped when
the list is empty or contains the sentinel `"all"`, and restricts to the
matching rows when not. -/
def mStep (a : MSelArg) (col : Row → Option PyVal) (df : List Row) :
    Except PyErr (List Row) :=
  match a with
  | .absent => .error .keyError
  | .noneVal => .error .typeError
  | .vals l =>
    if 0 < l.length ∧ PyVal.vstr "all" ∉ l then .ok (df.filter (isinPred col l))
    else .ok df

/-- Python `float(filters[k])` applied to a range-bound argument: absent key
raises `KeyError` (at the `filters[k]` lookup), `float(None)` raises
`TypeError`, a non-numeric string raises `ValueError`. -/
def floatOfArg (a : BoundArg) : Except PyErr ℚ :=
  match a with
  | .absent => .error .keyError
  | .noneVal => .error .typeError
  | .val (.vint i) => .ok (i : ℚ)
  | .val (.vstr s) =>
    match parseFloat? s with
    | some q => .ok q
    | none => .error .valueError

/-- Row predicate of `df["distance"] >= m`: an NA distance gives an NA mask
cell, which selects `false`. -/
def distPredGe (m : ℚ) (r : Row) : Bool :=
  match r.distance with
  | some d => decide (m ≤ (d : ℚ))
  | none => false

/-- Row predicate of `df["distance"] <= M`: an NA distance selects `false`. -/
def distPredLe (bM : ℚ) (r : Row) : Bool :=
  match r.distance with
  | some d => decide ((d : ℚ) ≤ bM)
  | none => false

/-- The distance-range step of `filter_data`:

`df = df[df["distance"] >= float(filters["flight_distance_min"])]` then
`df = df[df["distance"] <= float(filters["flight_distance_max"])]`.

The guard `if "distance" in df.columns` is always true in this model (the
`Row` schema has the column).  A coercion failure in `float(...)`
propagates: there is no skip policy for distance bounds. -/
def distStep (amin amax : BoundArg) (df : List Row) : Except PyErr (List Row) :=
  match floatOfArg amin with
  | .error e => .error e
  | .ok m =>
    let df1 := df.filter (distPredGe m)
    match floatOfArg amax with
    | .error e => .error e
    | .ok bM => .ok (df1.filter (distPredLe bM))

/-- Parse of a date-bound filter value, modelling `pd.to_datetime(v)` with
the `datetime.fromisoformat(v)` fallback at day granularity: an ISO string
parses to its date and any other string fails both attempts; an integer is
read by `pd.to_datetime` as a nanosecond offset from the epoch, i.e. day
`1970-01-01` for the magnitudes a filter could carry. -/
def parseDateArg (v : PyVal) : Option Nat :=
  match v with
  | .vstr s => parseYMD s
  | .vint _ => some 19700101

/-- Row predicate of `df["date"] >= d0`: an NA (`NaT`) date selects `false`. -/
def datePredGe (d0 : Nat) (r : Row) : Bool :=
  match r.date with
  | some d => decide (d0 ≤ d)
  | none => false

/-- Row predicate of `df["date"] <= d0`: an NA (`NaT`) date selects `false`. -/
def datePredLe (d0 : Nat) (r : Row) : Bool :=
  match r.date with
  | some d => decide (d ≤ d0)
  | none => false

/-- One date-bound step of `filter_data`, modelling

```
if filters["date_start"] is not None:
    try: ... df = df[df["date"] >= pd.to_datetime(...)]
    except: try: ... datetime.fromisoformat(...)
            except: logger.warning(...)  # bound skipped
```

An absent key raises `KeyError` at the `filters[...]` lookup inside the
`is not None` test; a `None` value skips the whole block; a value that
fails both parse attempts logs a warning and skips the bound. -/
def dateStep (a : BoundArg) (p : Nat → Row → Bool) (df : List Row) :
    Except PyErr (List Row) :=
  match a with
  | .absent => .error .keyError
  | .noneVal => .ok df
  | .val v =>
    match parseDateArg v with
    | some d0 => .ok (df.filter (p d0))
    | none => .ok df

/-- The shared filter pipeline `filter_data(df, **filters)` of
`src/components/filter_component.py`, lines 237-302: the initial
`df.copy()` is the identity at this value level (the heap-level model
`filter_dataS` below accounts for the allocation), followed by the seven
multi-select steps, the distance-range step and the two date-bound steps,
in source order. -/
def filter_data (df : List Row) (fs : FilterSet) : Except PyErr (List Row) :=
  (mStep fs.year yearCol df).bind fun df1 =>
  (mStep fs.airline airlineCol df1).bind fun df2 =>
  (mStep fs.destination_airport destCol df2).bind fun df3 =>
  (mStep fs.month monthNameCol df3).bind fun df4 =>
  (mStep fs.day_of_week dayOfWeekCol df4).bind fun df5 =>
  (mStep fs.time_period timePeriodCol df5).bind fun df6 =>
  (mStep fs.delay_category delayCategoryCol df6).bind fun df7 =>
  (distStep fs.flight_distance_min fs.flight_distance_max df7).bind fun df8 =>
  (dateStep fs.date_start datePredGe df8).bind fun df9 =>
  dateStep fs.date_end datePredLe df9

/-- Outcome of one pipeline step viewed as data: either the step raises
(the error depending only on the filter argument, never on the rows) or it
behaves as `List.filter` with a fixed row predicate (`fun _ => true` when
the dimension is skipped). -/
def stepOf (e : Except PyErr (Row → Bool)) (df : List Row) :
    Except PyErr (List Row) :=
  e.map df.filter

/-- Predicate-or-error view of one multi-select step. -/
def mSpec (a : MSelArg) (col : Row → Option PyVal) :
    Except PyErr (Row → Bool) :=
  match a with
  | .absent => .error .keyError
  | .noneVal => .error .typeError
  | .vals l =>
    if 0 < l.length ∧ PyVal.vstr "all" ∉ l then .ok (isinPred col l)
    else .ok fun _ => true

/-- Predicate-or-error view of the distance-range step. -/
def distSpec (amin amax : BoundArg) : Except PyErr (Row → Bool) :=
  match floatOfArg amin with
  | .error e => .error e
  | .ok m =>
    match floatOfArg amax with
    | .error e => .error e
    | .ok bM => .ok fun r => distPredLe bM r && distPredGe m r

/-- Predicate-or-error view of one date-bound step. -/
def dSpec (a : BoundArg) (p : Nat → Row → Bool) : Except PyErr (Row → Bool) :=
  match a with
  | .absent => .error .keyError
  | .noneVal => .ok fun _ => true
  | .val v =>
    match parseDateArg v with
    | some d0 => .ok (p d0)
    | none => .ok fun _ => true

/-- Sequencing of two predicate-or-error step views: first error wins,
otherwise the predicates are conjoined (the later step's predicate written
first, matching how nested `List.filter` applications collapse). -/
def combSpec (e1 e2 : Except PyErr (Row → Bool)) : Except PyErr (Row → Bool) :=
  e1.bind fun p => e2.map fun q => fun r => q r && p r

/-- Predicate-or-error view of the whole `filter_data` pipeline, combining
the ten steps in source order. -/
def fsSpec (fs : FilterSet) : Except PyErr (Row → Bool) :=
  combSpec (combSpec (combSpec (combSpec (combSpec (combSpec (combSpec
    (combSpec (combSpec
      (mSpec fs.year yearCol)
      (mSpec fs.airline airlineCol))
      (mSpec fs.destination_airport destCol))
      (mSpec fs.month monthNameCol))
      (mSpec fs.day_of_week dayOfWeekCol))
      (mSpec fs.time_period timePeriodCol))
      (mSpec fs.delay_category delayCategoryCol))
      (distSpec fs.flight_distance_min fs.flight_distance_max))
      (dSpec fs.date_start datePredGe))
      (dSpec fs.date_end datePredLe)

/-- The `distance` values present in a table (pandas skips NA when taking
`df["distance"].min()` / `.max()`). -/
def distList (df : List Row) : List Int := df.filterMap Row.distance

/-- The `date` values present in a table. -/
def dateList (df : List Row) : List Nat := df.filterMap Row.date

/-- Output of the data-cards callback `update` in
`src/components/data_cards.py`: the five formatted card values are modelled
at the value level.  `noData` is the `["No Data", ...]` return taken when
the filtered frame is empty; `errorOut` is the `except Exception` branch
returning `["Error", ...]`; `values` carries total flights, average arrival
delay (`none` when every `arr_delay` is NA: pandas `mean` of an all-NA
column is NaN), the on-time rate in percent, average distance, and the
maximum arrival delay (`none` when all NA). -/
inductive CardsOut where
  | noData
  | errorOut
  | values (total : Nat) (avgDelay : Option ℚ) (onTimeRate : ℚ)
      (avgDistance : Option ℚ) (maxDelay : Option Int)

deriving DecidableEq

/-- Mean of the present values of a nullable integer column (`Series.mean`
skips NA; the mean of an empty/all-NA column is NaN, here `none`). -/
def meanOpt (l : List Int) : Option ℚ :=
  if l = [] then none else some ((l.sum : ℚ) / (l.length : ℚ))

/-- Maximum of the present values of a nullable integer column
(`Series.max` skips NA; all-NA gives NaN, here `none`). -/
def maxOpt (l : List Int) : Option Int :=
  match l with
  | [] => none
  | x :: xs => some (xs.foldl max x)

/-- The data-cards callback `update(**kwargs)` of
`src/components/data_cards.py`, lines 68-103: filter, short-circuit to
`noData` on an empty result, otherwise compute the five metrics
(`len(df)`, `df["arr_delay"].mean()`,
`df["on_time"].sum() / len(df) * 100`, `df["distance"].mean()`,
`df["arr_delay"].max()`); any exception from the body — in this model only
one escaping `filter_data` — lands in the `except` branch (`errorOut`). -/
def update (df : List Row) (fs : FilterSet) : CardsOut :=
  match filter_data df fs with
  | .error _ => .errorOut
  | .ok d =>
    if d.length = 0 then .noData
    else
      .values d.length (meanOpt (d.filterMap Row.arr_delay))
        (((d.filterMap Row.on_time).sum : ℚ) / (d.length : ℚ) * 100)
        (meanOpt (d.filterMap Row.distance))
        (maxOpt (d.filterMap Row.arr_delay))

/-- A raw record as read from the input file before the transformations of
`get_data`: the `date` column is still text, the three flag columns are
still plain nullable integers, and no derived boolean columns exist. -/
structure RawRow where
  year : Option Int
  month_name : Option String
  day_of_week : Option String
  airline_name : Option String
  dest : Option String
  time_period : Option String
  delay_category : Option String
  distance : Option Int
  arr_delay : Option Int
  date : Option String
  dep_delay_flag : Option Int
  arr_delay_flag : Option Int
  on_time : Option Int

deriving DecidableEq

/-- Errors `get_data` can raise: `FileNotFoundError` from the pandas reader
on a missing path (the load-time "data not found" failure) and
`ValueError` from `pd.to_datetime(..., format="%Y-%m-%d")` on an
unparseable date cell (the load-time "data format" failure). -/
inductive LoadErr where
  | fileNotFoundError
  | valueError

deriving DecidableEq

/-- Conversion of one raw record by the body of `get_data`: the date cell is
parsed (`NaN` passes through as `NaT`; a present cell that fails the
format raises, failing the whole load) and the three derived boolean
columns are computed as `df[flag] == 1`, which on an `Int64` column yields
`True`/`False` for present flags (any value other than 1, including 0 and
2, gives `False`) and NA for NA flags. -/
def convRow (r : RawRow) : Except LoadErr Row :=
  match r.date with
  | none =>
    .ok ⟨r.year, r.month_name, r.day_of_week, r.airline_name, r.dest,
      r.time_period, r.delay_category, r.distance, r.arr_delay, none,
      r.dep_delay_flag, r.arr_delay_flag, r.on_time,
      r.dep_delay_flag.map (fun k => decide (k = 1)),
      r.arr_delay_flag.map (fun k => decide (k = 1)),
      r.on_time.map (fun k => decide (k = 1))⟩
  | some s =>
    match parseYMD s with
    | some d =>
      .ok ⟨r.year, r.month_name, r.day_of_week, r.airline_name, r.dest,
        r.time_period, r.delay_category, r.distance, r.arr_delay, some d,
        r.dep_delay_flag, r.arr_delay_flag, r.on_time,
        r.dep_delay_flag.map (fun k => decide (k = 1)),
        r.arr_delay_flag.map (fun k => decide (k = 1)),
        r.on_time.map (fun k => decide (k = 1))⟩
    | none => .error .valueError

/-- Conversion of all raw records, failing on the first bad date (the
column-wide `pd.to_datetime` raises if any row fails). -/
def convRows : List RawRow → Except LoadErr (List Row)
  | [] => .ok []
  | r :: rs =>
    match convRow r with
    | .error e => .error e
    | .ok row => (convRows rs).map (row :: ·)

/-- Test of `dropna(how="all")` on a converted row: every cell of the row is
missing (the derived boolean cells are NA exactly when their source flags
are, so a row is all-NA after derivation iff its raw cells were). -/
def allNoneRow (r : Row) : Bool :=
  r.year.isNone && r.month_name.isNone && r.day_of_week.isNone &&
  r.airline_name.isNone && r.dest.isNone && r.time_period.isNone &&
  r.delay_category.isNone && r.distance.isNone && r.arr_delay.isNone &&
  r.date.isNone && r.dep_delay_flag.isNone && r.arr_delay_flag.isNone &&
  r.on_time.isNone && r.dep_delay_flag_bool.isNone &&
  r.arr_delay_flag_bool.isNone && r.on_time_bool.isNone

/-- Suffix test on strings, modelling Python `str.endswith`. -/
def endsWithStr (s suffix : String) : Bool :=
  suffix.toList.isSuffixOf s.toList

/-- The loader `get_data(data_path)` of `src/data.py`, lines 6-70, over an
abstract file system mapping a path to the records its file holds (`none`
= no file; the byte-level CSV/Parquet decoding and delimiter detection are
abstracted to delivering the records).  A missing path makes the pandas
reader raise `FileNotFoundError`.  The extension dispatch
`data_path.endswith(".parquet")` selects `read_parquet` or `read_csv`,
both of which deliver the file's records — the dispatch has no failing
arm, so no extension is ever rejected.  Then the date column is converted
(hard failure on any unparseable present cell), the three boolean flag
columns are derived, and all-null rows are dropped. -/
def get_data (data_path : String) (fsys : String → Option (List RawRow)) :
    Except LoadErr (List Row) :=
  match fsys data_path with
  | none => .error .fileNotFoundError
  | some raws =>
    let raws := if endsWithStr data_path ".parquet" then raws else raws
    (convRows raws).map (List.filter (fun r => !(allNoneRow r)))

/-- A heap of allocated dataframes; a frame reference is an index into the
heap.  This level makes the allocation behaviour of `filter_data` visible:
`df.copy()` and every boolean-mask selection `df[mask]` allocate a fresh
frame and never write an existing one. -/
abbrev Heap := List (List Row)

/-- Model of `df.copy()`: allocate a fresh frame holding the same rows. -/
def copyDf (h : Heap) (r : Nat) : Heap × Nat :=
  (h ++ [h.getD r []], h.length)

/-- Model of boolean-mask selection `df[mask]`: allocate a fresh frame
holding the selected rows. -/
def maskDf (h : Heap) (r : Nat) (p : Row → Bool) : Heap × Nat :=
  (h ++ [(h.getD r []).filter p], h.length)

/-- Heap-level multi-select step: as `mStep`, with the selection allocating
a fresh frame (the skip branch rebinds the same frame). -/
def mStepS (a : MSelArg) (col : Row → Option PyVal) (h : Heap) (r : Nat) :
    Except PyErr (Heap × Nat) :=
  match a with
  | .absent => .error .keyError
  | .noneVal => .error .typeError
  | .vals l =>
    if 0 < l.length ∧ PyVal.vstr "all" ∉ l then .ok (maskDf h r (isinPred col l))
    else .ok (h, r)

/-- Heap-level distance-range step. -/
def distStepS (amin amax : BoundArg) (h : Heap) (r : Nat) :
    Except PyErr (Heap × Nat) :=
  match floatOfArg amin with
  | .error e => .error e
  | .ok m =>
    let hr1 := maskDf h r (distPredGe m)
    match floatOfArg amax with
    | .error e => .error e
    | .ok bM => .ok (maskDf hr1.1 hr1.2 (distPredLe bM))

/-- Heap-level date-bound step. -/
def dateStepS (a : BoundArg) (p : Nat → Row → Bool) (h : Heap) (r : Nat) :
    Except PyErr (Heap × Nat) :=
  match a with
  | .absent => .error .keyError
  | .noneVal => .ok (h, r)
  | .val v =>
    match parseDateArg v with
    | some d0 => .ok (maskDf h r (p d0))
    | none => .ok (h, r)

/-- Heap-level `filter_data`: the function body as executed against the
frame store, starting with the `df.copy()` of line 241 and threading the
rebound local `df` through the ten steps. -/
def filter_dataS (h : Heap) (r : Nat) (fs : FilterSet) :
    Except PyErr (Heap × Nat) :=
  let hr := copyDf h r
  (mStepS fs.year yearCol hr.1 hr.2).bind fun s1 =>
  (mStepS fs.airline airlineCol s1.1 s1.2).bind fun s2 =>
  (mStepS fs.destination_airport destCol s2.1 s2.2).bind fun s3 =>
  (mStepS fs.month monthNameCol s3.1 s3.2).bind fun s4 =>
  (mStepS fs.day_of_week dayOfWeekCol s4.1 s4.2).bind fun s5 =>
  (mStepS fs.time_period timePeriodCol s5.1 s5.2).bind fun s6 =>
  (mStepS fs.delay_category delayCategoryCol s6.1 s6.2).bind fun s7 =>
  (distStepS fs.flight_distance_min fs.flight_distance_max s7.1 s7.2).bind fun s8 =>
  (dateStepS fs.date_start datePredGe s8.1 s8.2).bind fun s9 =>
  dateStepS fs.date_end datePredLe s9.1 s9.2

/-- A 2022 flight row, 500 miles, on time, dated 2022-01-01. -/
def rA : Row :=
  ⟨some 2022, some "Jan", some "Mon", some "Alpha Air", some "DCA",
    some "Morning", some "On-Time", some 500, some (-3), some 20220101,
    some 0, some 0, some 1, some false, some false, some true⟩

/-- A 2023 flight row, 1500 miles, not on time, dated 2023-02-15. -/
def rB : Row :=
  ⟨some 2023, some "Feb", some "Tue", some "Beta Air", some "LAX",
    some "Evening", some "Delayed", some 1500, some 45, some 20230215,
    some 1, some 1, some 0, some true, some true, some false⟩

/-- A row identical to `rA` except that its distance is missing. -/
def rNoDist : Row :=
  ⟨some 2022, some "Jan", some "Mon", some "Alpha Air", some "DCA",
    some "Morning", some "On-Time", none, some (-3), some 20220101,
    some 0, some 0, some 1, some false, some false, some true⟩

/-- A fully unconstrained filter set: every multi-select holds `["all"]`,
the distance bounds are 0 and 10000, no date bounds. -/
def fsAll : FilterSet :=
  ⟨.vals [.vstr "all"], .vals [.vstr "all"], .vals [.vstr "all"],
    .vals [.vstr "all"], .vals [.vstr "all"], .vals [.vstr "all"],
    .vals [.vstr "all"], .val (.vint 0), .val (.vint 10000),
    .noneVal, .noneVal⟩

/-- A multi-select argument that was delivered as an actual list. -/
def givenList (a : MSelArg) : Prop := ∃ l, a = MSelArg.vals l

/-- The filter set whose multi-select lists are all `["all"]`, with an
unparseable date_start bound. -/
def fsBadDate : FilterSet :=
  ⟨.vals [.vstr "all"], .vals [.vstr "all"], .vals [.vstr "all"],
    .vals [.vstr "all"], .vals [.vstr "all"], .vals [.vstr "all"],
    .vals [.vstr "all"], .val (.vint 0), .val (.vint 10000),
    .val (.vstr "not-a-date"), .noneVal⟩

/-- As `fsBadDate` but with no date bounds and a non-numeric distance
minimum. -/
def fsBadDist : FilterSet :=
  ⟨.vals [.vstr "all"], .vals [.vstr "all"], .vals [.vstr "all"],
    .vals [.vstr "all"], .vals [.vstr "all"], .vals [.vstr "all"],
    .vals [.vstr "all"], .val (.vstr "abc"), .val (.vint 10000),
    .noneVal, .noneVal⟩

/-- As `fsBadDate` but with the unparseable bound on date_end instead of
date_start. -/
def fsBadDateEnd : FilterSet :=
  ⟨.vals [.vstr "all"], .vals [.vstr "all"], .vals [.vstr "all"],
    .vals [.vstr "all"], .vals [.vstr "all"], .vals [.vstr "all"],
    .vals [.vstr "all"], .val (.vint 0), .val (.vint 10000),
    .noneVal, .val (.vstr "not-a-date")⟩

/-- As `fsBadDist` but with a coercible minimum and a non-numeric distance
maximum. -/
def fsBadDistMax : FilterSet :=
  ⟨.vals [.vstr "all"], .vals [.vstr "all"], .vals [.vstr "all"],
    .vals [.vstr "all"], .vals [.vstr "all"], .vals [.vstr "all"],
    .vals [.vstr "all"], .val (.vint 0), .val (.vstr "abc"),
    .noneVal, .noneVal⟩

/-- Filter set for the C1 counterexample: every multi-select list contains
the sentinel, the distance bounds are 500/500 — exactly the min and max of
the present distances of `[rA, rNoDist]` — and the date bounds are the ISO
form of the table's single date. -/
def fsMinMax : FilterSet :=
  ⟨.vals [.vstr "all"], .vals [.vstr "all"], .vals [.vstr "all"],
    .vals [.vstr "all"], .vals [.vstr "all"], .vals [.vstr "all"],
    .vals [.vstr "all"], .val (.vint 500), .val (.vint 500),
    .val (.vstr "2022-01-01"), .val (.vstr "2022-01-01")⟩

/-- Filter set for the C1 witness: sentinel everywhere, distance bounds
500/1500 (the min and max of `[rA, rB]`), date bounds 2022-01-01 and
2023-02-15 (the min and max date of `[rA, rB]`). -/
def fsMinMaxW : FilterSet :=
  ⟨.vals [.vstr "all"], .vals [.vstr "all"], .vals [.vstr "all"],
    .vals [.vstr "all"], .vals [.vstr "all"], .vals [.vstr "all"],
    .vals [.vstr "all"], .val (.vint 500), .val (.vint 1500),
    .val (.vstr "2022-01-01"), .val (.vstr "2023-02-15")⟩

/-- First scenario row: `{year: 2022, airline: "A", distance: 500,
on_time: 1}` (remaining columns populated arbitrarily). -/
def rS1 : Row :=
  ⟨some 2022, some "Jan", some "Mon", some "A", some "DCA", some "Morning",
    some "On-Time", some 500, some (-3), some 20220101, some 0, some 0,
    some 1, some false, some false, some true⟩

/-- Second scenario row: `{year: 2023, airline: "B", distance: 1500,
on_time: 0}`. -/
def rS2 : Row :=
  ⟨some 2023, some "Feb", some "Tue", some "B", some "LAX", some "Evening",
    some "Delayed", some 1500, some 45, some 20230215, some 1, some 1,
    some 0, some true, some true, some false⟩

/-- The scenario's filter set exactly as the claim writes it —
`year: ["2022"]` with the year as a *string* — with the dimensions the
scenario leaves out supplied as unconstrained (`["all"]` / no date
bounds), which is the most favourable completion. -/
def fsScenarioStr : FilterSet :=
  ⟨.vals [.vstr "2022"], .vals [.vstr "all"], .vals [.vstr "all"],
    .vals [.vstr "all"], .vals [.vstr "all"], .vals [.vstr "all"],
    .vals [.vstr "all"], .val (.vint 0), .val (.vint 1000),
    .noneVal, .noneVal⟩

/-- The scenario's filter set read literally as a four-key kwargs bag:
only year, airline and the distance bounds are present. -/
def fsScenarioLit : FilterSet :=
  ⟨.vals [.vstr "2022"], .vals [.vstr "all"], .absent, .absent, .absent,
    .absent, .absent, .val (.vint 0), .val (.vint 1000), .absent, .absent⟩

/-- The scenario's filter set with the year selection as the integer 2022 —
the type the year dropdown actually delivers, since its option values come
from the `Int64` year column. -/
def fsScenario : FilterSet :=
  ⟨.vals [.vint 2022], .vals [.vstr "all"], .vals [.vstr "all"],
    .vals [.vstr "all"], .vals [.vstr "all"], .vals [.vstr "all"],
    .vals [.vstr "all"], .val (.vint 0), .val (.vint 1000),
    .noneVal, .noneVal⟩

/-- A well-formed raw record whose cooked form is `rA`. -/
def rawGood : RawRow :=
  ⟨some 2022, some "Jan", some "Mon", some "Alpha Air", some "DCA",
    some "Morning", some "On-Time", some 500, some (-3),
    some "2022-01-01", some 0, some 0, some 1⟩

/-- A raw record whose date cell cannot be parsed as `YYYY-MM-DD`. -/
def rawBad : RawRow :=
  ⟨some 2022, some "Jan", some "Mon", some "Alpha Air", some "DCA",
    some "Morning", some "On-Time", some 500, some (-3),
    some "not-a-date", some 0, some 0, some 1⟩

/-- A raw record whose departure-delay flag is 2, neither 0 nor 1. -/
def rawFlag2 : RawRow :=
  ⟨some 2022, some "Jan", some "Mon", some "Alpha Air", some "DCA",
    some "Morning", some "On-Time", some 500, some (-3),
    some "2022-01-01", some 2, some 0, some 1⟩

/-- The cooked form of `rawFlag2`: the flag value 2 derives `false`. -/
def rFlag2 : Row :=
  ⟨some 2022, some "Jan", some "Mon", some "Alpha Air", some "DCA",
    some "Morning", some "On-Time", some 500, some (-3), some 20220101,
    some 2, some 0, some 1, some false, some false, some true⟩

/-- A file system holding one good record under an extension that is
neither `.csv` nor `.parquet`. -/
def fsysXyz : String → Option (List RawRow) := fun p =>
  if p = "flights.xyz" then some [rawGood] else none

/-- A file system holding one record with an unparseable date. -/
def fsysBadDate : String → Option (List RawRow) := fun p =>
  if p = "data.csv" then some [rawBad] else none

/-- A file system holding one record with flag value 2. -/
def fsysFlag2 : String → Option (List RawRow) := fun p =>
  if p = "data.csv" then some [rawFlag2] else none

/-- One heap extends another: it is at least as long and agrees on every
frame the smaller heap holds. -/
def heapLe (h h2 : Heap) : Prop :=
  h.length ≤ h2.length ∧ ∀ i, i < h.length → h2.getD i [] = h.getD i []

/-- A stateful step simulates a pure step: on success it only appends to
the heap, the result reference is the input one or a fresh one, and the
frame it designates holds exactly the pure step's output. -/
def SimRel (fS : Heap → Nat → Except PyErr (Heap × Nat))
    (f : List Row → Except PyErr (List Row)) : Prop :=
  ∀ h r h2 r2, fS h r = .ok (h2, r2) →
    heapLe h h2 ∧ (r2 = r ∨ h.length ≤ r2) ∧
      f (h.getD r []) = .ok (h2.getD r2 [])

theorem mStep_eq (a : MSelArg) (col : Row → Option PyVal) (df : List Row) :
    mStep a col df = stepOf (mSpec a col) df := by
  cases a with
  | absent => rfl
  | noneVal => rfl
  | vals l =>
    by_cases h : 0 < l.length ∧ PyVal.vstr "all" ∉ l
    · simp [mStep, mSpec, stepOf, h, Except.map]
    · simp [mStep, mSpec, stepOf, h, Except.map, List.filter_true]

theorem distStep_eq (amin amax : BoundArg) (df : List Row) :
    distStep amin amax df = stepOf (distSpec amin amax) df := by
  cases h1 : floatOfArg amin with
  | error e => simp [distStep, distSpec, stepOf, h1, Except.map]
  | ok m =>
    cases h2 : floatOfArg amax with
    | error e => simp [distStep, distSpec, stepOf, h1, h2, Except.map]
    | ok bM =>
      simp [distStep, distSpec, stepOf, h1, h2, Except.map, List.filter_filter]

theorem dateStep_eq (a : BoundArg) (p : Nat → Row → Bool) (df : List Row) :
    dateStep a p df = stepOf (dSpec a p) df := by
  cases a with
  | absent => rfl
  | noneVal => simp [dateStep, dSpec, stepOf, Except.map, List.filter_true]
  | val v =>
    cases h : parseDateArg v with
    | some d0 => simp [dateStep, dSpec, stepOf, h, Except.map]
    | none => simp [dateStep, dSpec, stepOf, h, Except.map, List.filter_true]

theorem stepOf_bind (e1 e2 : Except PyErr (Row → Bool)) (df : List Row)
    (k : List Row → Except PyErr (List Row)) :
    (stepOf e1 df).bind (fun d => (stepOf e2 d).bind k) =
      (stepOf (combSpec e1 e2) df).bind k := by
  cases e1 with
  | error e => rfl
  | ok p =>
    cases e2 with
    | error e => rfl
    | ok q =>
      simp [stepOf, combSpec, Except.map, Except.bind, List.filter_filter]

theorem stepOf_bind_last (e1 e2 : Except PyErr (Row → Bool)) (df : List Row) :
    (stepOf e1 df).bind (fun d => stepOf e2 d) = stepOf (combSpec e1 e2) df := by
  cases e1 with
  | error e => rfl
  | ok p =>
    cases e2 with
    | error e => rfl
    | ok q =>
      simp [stepOf, combSpec, Except.map, Except.bind, List.filter_filter]

/-- The whole pipeline either fails — for reasons depending only on the
filter arguments, never on the rows — or behaves as one `List.filter` with
a predicate depending only on the filter arguments. -/
theorem filter_data_spec (df : List Row) (fs : FilterSet) :
    filter_data df fs = stepOf (fsSpec fs) df := by
  simp only [filter_data, mStep_eq, distStep_eq, dateStep_eq]
  rw [stepOf_bind, stepOf_bind, stepOf_bind, stepOf_bind, stepOf_bind,
    stepOf_bind, stepOf_bind, stepOf_bind, stepOf_bind_last]
  rfl

theorem combSpec_ok (e1 e2 : Except PyErr (Row → Bool)) (P : Row → Bool)
    (h : combSpec e1 e2 = .ok P) :
    ∃ p q, e1 = .ok p ∧ e2 = .ok q ∧ P = fun r => q r && p r := by
  cases e1 with
  | error e => simp [combSpec, Except.bind] at h
  | ok p =>
    cases e2 with
    | error e => simp [combSpec, Except.bind, Except.map] at h
    | ok q =>
      refine ⟨p, q, rfl, rfl, ?_⟩
      simpa [combSpec, Except.bind, Except.map] using h.symm

/-- Helper: a distance-range predicate accepts only rows whose distance is
present. -/
theorem distPredLe_isSome {bM : ℚ} {r : Row} (h : distPredLe bM r = true) :
    r.distance.isSome = true := by
  cases hd : r.distance with
  | some d => rfl
  | none => rw [distPredLe, hd] at h; cases h

/-- Helper: a successful `distSpec` yields the conjunction of the two
distance-bound predicates. -/
theorem distSpec_ok (amin amax : BoundArg) (q : Row → Bool)
    (h : distSpec amin amax = .ok q) :
    ∃ m bM, q = fun r => distPredLe bM r && distPredGe m r := by
  cases h1 : floatOfArg amin with
  | error e => rw [distSpec, h1] at h; cases h
  | ok m =>
    cases h2 : floatOfArg amax with
    | error e => rw [distSpec, h1, h2] at h; cases h
    | ok bM =>
      rw [distSpec, h1, h2] at h
      exact ⟨m, bM, (Except.ok.inj h).symm⟩

/-- Helper: boolean conjunction truth split. -/
theorem band_true_iff {a b : Bool} : (a && b) = true ↔ a = true ∧ b = true := by
  simp

/-- C8 (confirmed): filtering is idempotent — whenever
`filter_data df fs` returns a table `out`, running `filter_data` again on
`out` with the same filter set returns `out` itself. -/
theorem filter_data_idempotent (df : List Row) (fs : FilterSet)
    (out : List Row) (h : filter_data df fs = .ok out) :
    filter_data out fs = .ok out := by
  rw [filter_data_spec] at h ⊢
  cases hs : fsSpec fs with
  | error e => rw [hs] at h; cases h
  | ok P =>
    rw [hs] at h
    simp only [stepOf, Except.map] at h ⊢
    have hout : df.filter P = out := Except.ok.inj h
    have : out.filter P = out := by
      refine List.filter_eq_self.mpr fun a ha => ?_
      rw [← hout] at ha
      exact (List.mem_filter.mp ha).2
    rw [this]

/-- Witness for C8 at a concrete two-row table and the unconstrained
filter set. -/
theorem filter_data_idempotent_witness :
    filter_data [rA, rB] fsAll = .ok [rA, rB] ∧
      filter_data [rA, rB] fsAll = .ok [rA, rB] :=
  ⟨by decide, filter_data_idempotent [rA, rB] fsAll [rA, rB] (by decide)⟩

/-- C10 (confirmed): whatever the supplied bounds, every row of a
successful `filter_data` result has a present distance — the always-applied
distance-range comparison removes rows whose distance is missing, because
an NA cell yields an NA mask entry and NA selects nothing. -/
theorem filter_data_excludes_missing_distance (df : List Row)
    (fs : FilterSet) (out : List Row) (h : filter_data df fs = .ok out) :
    ∀ r ∈ out, r.distance.isSome = true := by
  intro r hr
  rw [filter_data_spec] at h
  cases hs : fsSpec fs with
  | error e => rw [hs] at h; cases h
  | ok P =>
    rw [hs] at h
    simp only [stepOf, Except.map] at h
    have hout : df.filter P = out := Except.ok.inj h
    rw [← hout] at hr
    have hP : P r = true := (List.mem_filter.mp hr).2
    obtain ⟨p9, q10, hA9, _, hPdef⟩ := combSpec_ok _ _ _ hs
    obtain ⟨p8, q9, hA8, _, hP9⟩ := combSpec_ok _ _ _ hA9
    obtain ⟨p7, q8, _, he8, hP8⟩ := combSpec_ok _ _ _ hA8
    obtain ⟨m, bM, hq8⟩ := distSpec_ok _ _ _ he8
    rw [hPdef] at hP
    have hp9 : p9 r = true := (band_true_iff.mp hP).2
    rw [hP9] at hp9
    have hp8 : p8 r = true := (band_true_iff.mp hp9).2
    rw [hP8] at hp8
    have hq8r : q8 r = true := (band_true_iff.mp hp8).1
    rw [hq8] at hq8r
    exact distPredLe_isSome (band_true_iff.mp hq8r).1

/-- Witness for C10: on the table `[rA, rNoDist]` with the unconstrained
filter set — whose bounds 0/10000 bracket every present distance — the
result is `[rA]` and its sole row has a present distance. -/
theorem filter_data_excludes_missing_distance_witness :
    filter_data [rA, rNoDist] fsAll = .ok [rA] ∧ rA.distance.isSome = true :=
  ⟨by decide,
    filter_data_excludes_missing_distance [rA, rNoDist] fsAll [rA]
      (by decide) rA (by decide)⟩

/-- C7 (confirmed): when the filtered result has zero rows, the data-cards
consumer short-circuits to its "No Data" signal — in particular the
on-time-rate division by `len(df)` is never reached — instead of raising
(its `errorOut` branch). -/
theorem update_empty_noData (df : List Row) (fs : FilterSet)
    (h : filter_data df fs = .ok []) : update df fs = .noData := by
  rw [update, h]
  rfl

/-- Witness for C7: filtering the one-row table `[rA]` (year 2022) to year
1999 yields zero rows, and the data cards report "No Data". -/
theorem update_empty_noData_witness :
    filter_data [rA]
        ⟨.vals [.vint 1999], .vals [.vstr "all"], .vals [.vstr "all"],
          .vals [.vstr "all"], .vals [.vstr "all"], .vals [.vstr "all"],
          .vals [.vstr "all"], .val (.vint 0), .val (.vint 10000),
          .noneVal, .noneVal⟩ = .ok [] ∧
      update [rA]
        ⟨.vals [.vint 1999], .vals [.vstr "all"], .vals [.vstr "all"],
          .vals [.vstr "all"], .vals [.vstr "all"], .vals [.vstr "all"],
          .vals [.vstr "all"], .val (.vint 0), .val (.vint 10000),
          .noneVal, .noneVal⟩ = .noData :=
  ⟨by decide, update_empty_noData _ _ (by decide)⟩

/-- Helper: two filter sets with the same predicate-or-error view filter
identically. -/
theorem filter_data_congr (df : List Row) (fs1 fs2 : FilterSet)
    (h : fsSpec fs1 = fsSpec fs2) : filter_data df fs1 = filter_data df fs2 := by
  rw [filter_data_spec, filter_data_spec, h]

/-- Helper: a multi-select dimension given as a list never errors. -/
theorem mSpec_vals_ok (l : List PyVal) (col : Row → Option PyVal) :
    ∃ p, mSpec (.vals l) col = .ok p := by
  by_cases h : 0 < l.length ∧ PyVal.vstr "all" ∉ l
  · refine ⟨isinPred col l, ?_⟩
    simp [mSpec, h]
  · refine ⟨fun _ => true, ?_⟩
    simp [mSpec, h]

/-- C6 (confirmed): a non-null date bound — start or end — that fails both
parse attempts is skipped: `filter_data` behaves exactly as if that bound
were absent (`None`) and returns normally (the warning log has no data
effect); whereas a distance bound — minimum or maximum — whose
`float(...)` coercion fails is not skipped: the error propagates out of
`filter_data` (shown with every multi-select dimension delivered as a
list, so that no earlier step masks it; for the maximum, with a minimum
that does coerce, matching the source order in which `float` is applied). -/
theorem filter_data_bound_error_policy (df : List Row) (fs : FilterSet)
    (v w : PyVal) (e e' : PyErr) (m : ℚ) :
    (fs.date_start = .val v → parseDateArg v = none →
      filter_data df fs = filter_data df { fs with date_start := .noneVal }) ∧
    (fs.date_end = .val w → parseDateArg w = none →
      filter_data df fs = filter_data df { fs with date_end := .noneVal }) ∧
    (givenList fs.year → givenList fs.airline →
      givenList fs.destination_airport → givenList fs.month →
      givenList fs.day_of_week → givenList fs.time_period →
      givenList fs.delay_category →
      floatOfArg fs.flight_distance_min = .error e →
      filter_data df fs = .error e) ∧
    (givenList fs.year → givenList fs.airline →
      givenList fs.destination_airport → givenList fs.month →
      givenList fs.day_of_week → givenList fs.time_period →
      givenList fs.delay_category →
      floatOfArg fs.flight_distance_min = .ok m →
      floatOfArg fs.flight_distance_max = .error e' →
      filter_data df fs = .error e') := by
  refine ⟨?_, ?_, ?_, ?_⟩
  · intro hds hparse
    apply filter_data_congr
    simp only [fsSpec]
    rw [hds]
    simp [dSpec, hparse]
  · intro hde hparse
    apply filter_data_congr
    simp only [fsSpec]
    rw [hde]
    simp [dSpec, hparse]
  · rintro ⟨l1, h1⟩ ⟨l2, h2⟩ ⟨l3, h3⟩ ⟨l4, h4⟩ ⟨l5, h5⟩ ⟨l6, h6⟩ ⟨l7, h7⟩ herr
    obtain ⟨p1, hp1⟩ := mSpec_vals_ok l1 yearCol
    obtain ⟨p2, hp2⟩ := mSpec_vals_ok l2 airlineCol
    obtain ⟨p3, hp3⟩ := mSpec_vals_ok l3 destCol
    obtain ⟨p4, hp4⟩ := mSpec_vals_ok l4 monthNameCol
    obtain ⟨p5, hp5⟩ := mSpec_vals_ok l5 dayOfWeekCol
    obtain ⟨p6, hp6⟩ := mSpec_vals_ok l6 timePeriodCol
    obtain ⟨p7, hp7⟩ := mSpec_vals_ok l7 delayCategoryCol
    rw [filter_data_spec]
    simp only [fsSpec]
    rw [h1, h2, h3, h4, h5, h6, h7]
    simp [hp1, hp2, hp3, hp4, hp5, hp6, hp7, distSpec, herr, combSpec,
      Except.bind, Except.map, stepOf]
  · rintro ⟨l1, h1⟩ ⟨l2, h2⟩ ⟨l3, h3⟩ ⟨l4, h4⟩ ⟨l5, h5⟩ ⟨l6, h6⟩ ⟨l7, h7⟩
      hmin herr
    obtain ⟨p1, hp1⟩ := mSpec_vals_ok l1 yearCol
    obtain ⟨p2, hp2⟩ := mSpec_vals_ok l2 airlineCol
    obtain ⟨p3, hp3⟩ := mSpec_vals_ok l3 destCol
    obtain ⟨p4, hp4⟩ := mSpec_vals_ok l4 monthNameCol
    obtain ⟨p5, hp5⟩ := mSpec_vals_ok l5 dayOfWeekCol
    obtain ⟨p6, hp6⟩ := mSpec_vals_ok l6 timePeriodCol
    obtain ⟨p7, hp7⟩ := mSpec_vals_ok l7 delayCategoryCol
    rw [filter_data_spec]
    simp only [fsSpec]
    rw [h1, h2, h3, h4, h5, h6, h7]
    simp [hp1, hp2, hp3, hp4, hp5, hp6, hp7, distSpec, hmin, herr, combSpec,
      Except.bind, Except.map, stepOf]

/-- Witness for C6: with all multi-selects `["all"]`, an unparseable
date_start is skipped, an unparseable date_end is skipped (each behaving
as no bound at all), while a non-numeric distance minimum — and likewise a
non-numeric distance maximum after a coercible minimum — makes
`filter_data` raise the coercion error. -/
theorem filter_data_bound_error_policy_witness :
    (filter_data [rA] fsBadDate =
      filter_data [rA] { fsBadDate with date_start := .noneVal }) ∧
      (filter_data [rA] fsBadDateEnd =
        filter_data [rA] { fsBadDateEnd with date_end := .noneVal }) ∧
      filter_data [rA] fsBadDist = .error .valueError ∧
      filter_data [rA] fsBadDistMax = .error .valueError :=
  ⟨(filter_data_bound_error_policy [rA] fsBadDate (.vstr "not-a-date")
      (.vstr "not-a-date") .valueError .valueError 0).1 rfl (by decide),
    (filter_data_bound_error_policy [rA] fsBadDateEnd (.vstr "not-a-date")
      (.vstr "not-a-date") .valueError .valueError 0).2.1 rfl (by decide),
    (filter_data_bound_error_policy [rA] fsBadDist (.vstr "not-a-date")
      (.vstr "not-a-date") .valueError .valueError 0).2.2.1 ⟨_, rfl⟩
      ⟨_, rfl⟩ ⟨_, rfl⟩ ⟨_, rfl⟩ ⟨_, rfl⟩ ⟨_, rfl⟩ ⟨_, rfl⟩ (by decide),
    (filter_data_bound_error_policy [rA] fsBadDistMax (.vstr "not-a-date")
      (.vstr "not-a-date") .valueError .valueError 0).2.2.2 ⟨_, rfl⟩
      ⟨_, rfl⟩ ⟨_, rfl⟩ ⟨_, rfl⟩ ⟨_, rfl⟩ ⟨_, rfl⟩ ⟨_, rfl⟩ (by decide)
      (by decide)⟩

/-- Counterexample to C3 as stated: a filter set in which the year
dimension's value is absent (the key is missing from the kwargs bag) makes
`filter_data` raise `KeyError` at `filters["year"]` — it does not treat
the absent dimension as unconstrained. -/
theorem filter_data_absent_key_raises :
    filter_data [rA] { fsAll with year := .absent } = .error .keyError := by
  decide

/-- C3 (corrected): for every multi-select dimension, supplying the empty
list never raises and restricts nothing — `filter_data` behaves exactly as
with `["all"]` — but a dimension whose value is absent from the kwargs bag
raises `KeyError` (see the counterexample), so "absent" and "empty list"
are not interchangeable in the code. -/
theorem filter_data_emptyList_eq_all (df : List Row) (fs : FilterSet) :
    filter_data df { fs with year := .vals [] } =
        filter_data df { fs with year := .vals [.vstr "all"] } ∧
      filter_data df { fs with airline := .vals [] } =
        filter_data df { fs with airline := .vals [.vstr "all"] } ∧
      filter_data df { fs with destination_airport := .vals [] } =
        filter_data df { fs with destination_airport := .vals [.vstr "all"] } ∧
      filter_data df { fs with month := .vals [] } =
        filter_data df { fs with month := .vals [.vstr "all"] } ∧
      filter_data df { fs with day_of_week := .vals [] } =
        filter_data df { fs with day_of_week := .vals [.vstr "all"] } ∧
      filter_data df { fs with time_period := .vals [] } =
        filter_data df { fs with time_period := .vals [.vstr "all"] } ∧
      filter_data df { fs with delay_category := .vals [] } =
        filter_data df { fs with delay_category := .vals [.vstr "all"] } := by
  refine ⟨?_, ?_, ?_, ?_, ?_, ?_, ?_⟩ <;>
    · apply filter_data_congr
      simp [fsSpec, mSpec]

/-- Counterexample to C1 as stated: on the table `[rA, rNoDist]` every
multi-select list contains `"all"`, the distance bounds equal the table's
own minimum and maximum distance (500, over the present values, as pandas
`min`/`max` skip NA) and the date bounds equal its minimum and maximum
date — yet `filter_data` returns only `[rA]`, not the table itself: the
always-applied distance comparison drops the row whose distance is
missing. -/
theorem filter_data_all_sentinel_not_id :
    (500 ∈ distList [rA, rNoDist] ∧
        (∀ d ∈ distList [rA, rNoDist], 500 ≤ d ∧ d ≤ 500) ∧
        20220101 ∈ dateList [rA, rNoDist] ∧
        (∀ d ∈ dateList [rA, rNoDist], 20220101 ≤ d ∧ d ≤ 20220101) ∧
        parseYMD "2022-01-01" = some 20220101) ∧
      filter_data [rA, rNoDist] fsMinMax = .ok [rA] ∧
      [rA] ≠ [rA, rNoDist] := by
  decide

/-- C1 (corrected): if additionally every row's distance and date are
present, then with every multi-select list containing `"all"` and with
integer distance bounds and parseable date bounds that bracket the
table's own distance and date values — as the table's own min/max bounds
do — `filter_data` returns the table unchanged, row for row. -/
theorem filter_data_all_sentinel_minmax_id
    (df : List Row) (fs : FilterSet) (dmin dmax : Int) (dlo dhi : Nat)
    (vs ve : PyVal)
    (h1 : ∃ l, fs.year = .vals l ∧ PyVal.vstr "all" ∈ l)
    (h2 : ∃ l, fs.airline = .vals l ∧ PyVal.vstr "all" ∈ l)
    (h3 : ∃ l, fs.destination_airport = .vals l ∧ PyVal.vstr "all" ∈ l)
    (h4 : ∃ l, fs.month = .vals l ∧ PyVal.vstr "all" ∈ l)
    (h5 : ∃ l, fs.day_of_week = .vals l ∧ PyVal.vstr "all" ∈ l)
    (h6 : ∃ l, fs.time_period = .vals l ∧ PyVal.vstr "all" ∈ l)
    (h7 : ∃ l, fs.delay_category = .vals l ∧ PyVal.vstr "all" ∈ l)
    (hmin : fs.flight_distance_min = .val (.vint dmin))
    (hmax : fs.flight_distance_max = .val (.vint dmax))
    (hminLB : ∀ d ∈ distList df, dmin ≤ d)
    (hmaxUB : ∀ d ∈ distList df, d ≤ dmax)
    (hs : fs.date_start = .val vs) (hsp : parseDateArg vs = some dlo)
    (he : fs.date_end = .val ve) (hep : parseDateArg ve = some dhi)
    (hloLB : ∀ d ∈ dateList df, dlo ≤ d)
    (hhiUB : ∀ d ∈ dateList df, d ≤ dhi)
    (hdist : ∀ r ∈ df, r.distance.isSome = true)
    (hdate : ∀ r ∈ df, r.date.isSome = true) :
    filter_data df fs = .ok df := by
  obtain ⟨l1, hl1, ha1⟩ := h1
  obtain ⟨l2, hl2, ha2⟩ := h2
  obtain ⟨l3, hl3, ha3⟩ := h3
  obtain ⟨l4, hl4, ha4⟩ := h4
  obtain ⟨l5, hl5, ha5⟩ := h5
  obtain ⟨l6, hl6, ha6⟩ := h6
  obtain ⟨l7, hl7, ha7⟩ := h7
  have hm1 : mSpec fs.year yearCol = .ok fun _ => true := by
    rw [hl1]; simp [mSpec, ha1]
  have hm2 : mSpec fs.airline airlineCol = .ok fun _ => true := by
    rw [hl2]; simp [mSpec, ha2]
  have hm3 : mSpec fs.destination_airport destCol = .ok fun _ => true := by
    rw [hl3]; simp [mSpec, ha3]
  have hm4 : mSpec fs.month monthNameCol = .ok fun _ => true := by
    rw [hl4]; simp [mSpec, ha4]
  have hm5 : mSpec fs.day_of_week dayOfWeekCol = .ok fun _ => true := by
    rw [hl5]; simp [mSpec, ha5]
  have hm6 : mSpec fs.time_period timePeriodCol = .ok fun _ => true := by
    rw [hl6]; simp [mSpec, ha6]
  have hm7 : mSpec fs.delay_category delayCategoryCol = .ok fun _ => true := by
    rw [hl7]; simp [mSpec, ha7]
  have hd8 : distSpec fs.flight_distance_min fs.flight_distance_max =
      .ok fun r => distPredLe (dmax : ℚ) r && distPredGe (dmin : ℚ) r := by
    rw [hmin, hmax]; simp [distSpec, floatOfArg]
  have hd9 : dSpec fs.date_start datePredGe = .ok (datePredGe dlo) := by
    rw [hs]; simp [dSpec, hsp]
  have hd10 : dSpec fs.date_end datePredLe = .ok (datePredLe dhi) := by
    rw [he]; simp [dSpec, hep]
  rw [filter_data_spec]
  simp only [fsSpec, hm1, hm2, hm3, hm4, hm5, hm6, hm7, hd8, hd9, hd10,
    combSpec, Except.bind, Except.map, stepOf, Bool.and_true, Bool.true_and]
  congr 1
  refine List.filter_eq_self.mpr fun r hr => ?_
  obtain ⟨dd, hdd⟩ := Option.isSome_iff_exists.mp (hdist r hr)
  obtain ⟨dt, hdt⟩ := Option.isSome_iff_exists.mp (hdate r hr)
  have hddm : dd ∈ distList df := List.mem_filterMap.mpr ⟨r, hr, hdd⟩
  have hdtm : dt ∈ dateList df := List.mem_filterMap.mpr ⟨r, hr, hdt⟩
  simp [distPredGe, distPredLe, datePredGe, datePredLe, hdd, hdt,
    hloLB dt hdtm, hhiUB dt hdtm, Int.cast_le.mpr (hmaxUB dd hddm),
    Int.cast_le.mpr (hminLB dd hddm)]

/-- Witness for the corrected C1 on the fully-populated table `[rA, rB]`
with its own min/max bounds. -/
theorem filter_data_all_sentinel_minmax_id_witness :
    filter_data [rA, rB] fsMinMaxW = .ok [rA, rB] :=
  filter_data_all_sentinel_minmax_id [rA, rB] fsMinMaxW 500 1500
    20220101 20230215 (.vstr "2022-01-01") (.vstr "2023-02-15")
    ⟨[.vstr "all"], rfl, by decide⟩ ⟨[.vstr "all"], rfl, by decide⟩
    ⟨[.vstr "all"], rfl, by decide⟩ ⟨[.vstr "all"], rfl, by decide⟩
    ⟨[.vstr "all"], rfl, by decide⟩ ⟨[.vstr "all"], rfl, by decide⟩
    ⟨[.vstr "all"], rfl, by decide⟩ rfl rfl (by decide) (by decide)
    rfl (by decide) rfl (by decide) (by decide) (by decide)
    (by decide) (by decide)

/-- Counterexample to C5 as stated: with the claim's filters
`{year: ["2022"], airline: ["all"], distance 0..1000}` the result is
empty, not the first row — `isin` compares the string `"2022"` against the
`Int64` value `2022` without coercion, so nothing matches — and the
on-time-rate card consequently shows "No Data", not 100%.  (Read literally
as a four-key kwargs bag the call does not even get that far: it raises
`KeyError` at `filters["destination_airport"]`.) -/
theorem filter_data_scenario_string_year :
    filter_data [rS1, rS2] fsScenarioStr = .ok [] ∧
      (Except.ok ([] : List Row) : Except PyErr (List Row)) ≠ .ok [rS1] ∧
      update [rS1, rS2] fsScenarioStr = .noData ∧
      filter_data [rS1, rS2] fsScenarioLit = .error .keyError := by
  decide

/-- C5 (corrected): the scenario holds once the year selection is the
integer `2022` (matching the year column's type): the result is exactly
the first row, and the data-cards aggregation on it reports 1 flight with
an on-time rate of 100%. -/
theorem filter_data_scenario_numeric_year :
    filter_data [rS1, rS2] fsScenario = .ok [rS1] ∧
      update [rS1, rS2] fsScenario =
        .values 1 (some (-3)) 100 (some 500) (some (-3)) := by
  have hf : filter_data [rS1, rS2] fsScenario = .ok [rS1] := by decide
  refine ⟨hf, ?_⟩
  rw [update, hf]
  norm_num [rS1, meanOpt, maxOpt, List.filterMap_cons]

/-- Helper: `convRow` only ever raises the date-format error. -/
theorem convRow_error (a : RawRow) (e : LoadErr)
    (h : convRow a = .error e) : e = .valueError := by
  cases hd : a.date with
  | none =>
    simp only [convRow, hd] at h
    exact Except.noConfusion h
  | some s =>
    cases hp : parseYMD s with
    | some d =>
      simp only [convRow, hd, hp] at h
      exact Except.noConfusion h
    | none =>
      simp only [convRow, hd, hp] at h
      exact (Except.error.inj h).symm

/-- Helper: one unparseable present date cell fails the whole conversion
with the format error. -/
theorem convRows_bad_date (raws : List RawRow)
    (h : ∃ r ∈ raws, ∃ s, r.date = some s ∧ parseYMD s = none) :
    convRows raws = .error .valueError := by
  induction raws with
  | nil => obtain ⟨r, hr, _⟩ := h; cases hr
  | cons a rest ih =>
    obtain ⟨r, hr, s, hds, hps⟩ := h
    rcases List.mem_cons.mp hr with heq | htl
    · subst heq
      simp only [convRows, convRow, hds, hps]
    · rw [convRows]
      cases hc : convRow a with
      | error e =>
        dsimp only
        rw [convRow_error a e hc]
      | ok row =>
        dsimp only
        rw [ih ⟨r, htl, s, hds, hps⟩]
        rfl

/-- Counterexample to C2 as stated: the loader never fails on an
unsupported file extension — there is no `UnsupportedFormatError` anywhere
in the code; a path ending in `.xyz` is simply read through the CSV branch
and the load succeeds. -/
theorem get_data_unsupported_extension_succeeds :
    endsWithStr "flights.xyz" ".parquet" = false ∧
      get_data "flights.xyz" fsysXyz = .ok [rA] := by
  decide

/-- C2 (corrected): a missing input file fails the load with the
file-not-found error and an unparseable present date cell fails it with
the format error, but an unsupported extension is not rejected: for any
readable content the loader's result is determined by the records alone —
every non-`.parquet` path goes through the CSV branch, and no extension
check can fail. -/
theorem get_data_error_policy (path : String)
    (fsys : String → Option (List RawRow)) (raws : List RawRow) :
    (fsys path = none → get_data path fsys = .error .fileNotFoundError) ∧
      (fsys path = some raws →
        (∃ r ∈ raws, ∃ s, r.date = some s ∧ parseYMD s = none) →
        get_data path fsys = .error .valueError) ∧
      (fsys path = some raws →
        get_data path fsys =
          (convRows raws).map (List.filter fun r => !(allNoneRow r))) := by
  refine ⟨fun hn => ?_, fun hsome hbad => ?_, fun hsome => ?_⟩
  · rw [get_data, hn]
  · rw [get_data, hsome]
    simp [convRows_bad_date raws hbad, Except.map]
  · rw [get_data, hsome]
    simp

/-- Witness for C2: the three parts at concrete inputs — a missing path, a
file with a bad date, and a `.xyz` file whose outcome equals the pure
record-level conversion. -/
theorem get_data_error_policy_witness :
    get_data "data.csv" (fun _ => none) = .error .fileNotFoundError ∧
      get_data "data.csv" fsysBadDate = .error .valueError ∧
      get_data "flights.xyz" fsysXyz =
        (convRows [rawGood]).map (List.filter fun r => !(allNoneRow r)) :=
  ⟨(get_data_error_policy "data.csv" (fun _ => none) []).1 rfl,
    (get_data_error_policy "data.csv" fsysBadDate [rawBad]).2.1 rfl
      ⟨rawBad, by decide, "not-a-date", rfl, by decide⟩,
    (get_data_error_policy "flights.xyz" fsysXyz [rawGood]).2.2 rfl⟩

/-- Helper: the fields of a successfully converted row in terms of its raw
record: the data columns are carried over and each derived boolean column
is the `== 1` image of its flag column. -/
theorem convRow_ok_fields (a : RawRow) (row : Row)
    (h : convRow a = .ok row) :
    row.dep_delay_flag = a.dep_delay_flag ∧
      row.arr_delay_flag = a.arr_delay_flag ∧
      row.on_time = a.on_time ∧
      row.dep_delay_flag_bool = a.dep_delay_flag.map (fun k => decide (k = 1)) ∧
      row.arr_delay_flag_bool = a.arr_delay_flag.map (fun k => decide (k = 1)) ∧
      row.on_time_bool = a.on_time.map (fun k => decide (k = 1)) := by
  cases hd : a.date with
  | none =>
    simp only [convRow, hd] at h
    obtain rfl := Except.ok.inj h.symm
    exact ⟨rfl, rfl, rfl, rfl, rfl, rfl⟩
  | some s =>
    cases hp : parseYMD s with
    | some d =>
      simp only [convRow, hd, hp] at h
      obtain rfl := Except.ok.inj h.symm
      exact ⟨rfl, rfl, rfl, rfl, rfl, rfl⟩
    | none =>
      simp only [convRow, hd, hp] at h
      exact Except.noConfusion h

/-- Helper: every row of a successful conversion is the image of some raw
record. -/
theorem convRows_mem (raws : List RawRow) (rows : List Row)
    (h : convRows raws = .ok rows) :
    ∀ r ∈ rows, ∃ a, convRow a = .ok r := by
  induction raws generalizing rows with
  | nil =>
    rw [convRows] at h
    obtain rfl := Except.ok.inj h
    intro r hr
    cases hr
  | cons a rest ih =>
    rw [convRows] at h
    cases hc : convRow a with
    | error e => rw [hc] at h; cases h
    | ok row =>
      rw [hc] at h
      cases hrest : convRows rest with
      | error e => rw [hrest] at h; cases h
      | ok rows0 =>
        rw [hrest] at h
        obtain rfl := Except.ok.inj h
        intro r hr
        rcases List.mem_cons.mp hr with heq | htl
        · exact ⟨a, by rw [hc, heq]⟩
        · exact ih rows0 hrest r htl

/-- Counterexample to C4 as stated: a departure-delay flag of 2 — nonzero —
loads as `False`, not `True`: the derivation is `== 1`, not
truthy-if-nonzero. -/
theorem get_data_flag2_gives_false :
    get_data "data.csv" fsysFlag2 = .ok [rFlag2] ∧
      rFlag2.dep_delay_flag = some 2 ∧
      rFlag2.dep_delay_flag_bool = some false := by
  decide

/-- C4 (corrected): after load, each derived boolean column is `some true`
exactly on rows whose corresponding integer flag equals 1 and `some false`
for every other present flag value — 0, but equally 2 or any nonzero
value other than 1 — mirroring `df[flag] == 1`. -/
theorem get_data_flag_bools (path : String)
    (fsys : String → Option (List RawRow)) (rows : List Row)
    (h : get_data path fsys = .ok rows) :
    ∀ r ∈ rows, ∀ k : Int,
      (r.dep_delay_flag = some k →
        r.dep_delay_flag_bool = some (decide (k = 1))) ∧
      (r.arr_delay_flag = some k →
        r.arr_delay_flag_bool = some (decide (k = 1))) ∧
      (r.on_time = some k → r.on_time_bool = some (decide (k = 1))) := by
  intro r hr k
  rw [get_data] at h
  cases hf : fsys path with
  | none => rw [hf] at h; cases h
  | some raws =>
    rw [hf] at h
    simp only [ite_self] at h
    cases hc : convRows raws with
    | error e => rw [hc] at h; cases h
    | ok rows0 =>
      rw [hc] at h
      simp only [Except.map] at h
      obtain rfl := Except.ok.inj h
      have hr0 : r ∈ rows0 := (List.mem_filter.mp hr).1
      obtain ⟨a, ha⟩ := convRows_mem raws rows0 hc r hr0
      obtain ⟨hd, har, hot, hdb, harb, hotb⟩ := convRow_ok_fields a r ha
      refine ⟨fun hk => ?_, fun hk => ?_, fun hk => ?_⟩
      · rw [hdb, ← hd, hk]
        simp [Option.map]
      · rw [harb, ← har, hk]
        simp [Option.map]
      · rw [hotb, ← hot, hk]
        simp [Option.map]

/-- Witness for C4 at the flag-value-2 fixture: the loaded row's derived
boolean is `some (decide (2 = 1))`, i.e. `some false`. -/
theorem get_data_flag_bools_witness :
    rFlag2.dep_delay_flag_bool = some (decide ((2 : Int) = 1)) :=
  ((get_data_flag_bools "data.csv" fsysFlag2 [rFlag2] (by decide)) rFlag2
    (by decide) 2).1 (by decide)

theorem heapLe_refl (h : Heap) : heapLe h h :=
  ⟨le_refl _, fun _ _ => rfl⟩

theorem heapLe_snoc (h : Heap) (x : List Row) : heapLe h (h ++ [x]) :=
  ⟨by simp, fun i hi => List.getD_append h [x] [] i hi⟩

theorem heapLe_trans {a b c : Heap} (h1 : heapLe a b) (h2 : heapLe b c) :
    heapLe a c :=
  ⟨h1.1.trans h2.1, fun i hi =>
    (h2.2 i (lt_of_lt_of_le hi h1.1)).trans (h1.2 i hi)⟩

theorem getD_snoc_self (h : Heap) (x : List Row) :
    (h ++ [x]).getD h.length [] = x := by
  simp [List.getD, List.getElem?_append_right]

theorem simRel_bind (fS : Heap → Nat → Except PyErr (Heap × Nat))
    (f : List Row → Except PyErr (List Row))
    (gS : Heap → Nat → Except PyErr (Heap × Nat))
    (g : List Row → Except PyErr (List Row))
    (hf : SimRel fS f) (hg : SimRel gS g) :
    SimRel (fun h r => (fS h r).bind fun s => gS s.1 s.2)
      (fun df => (f df).bind g) := by
  intro h r h2 r2 hrun
  dsimp only at hrun ⊢
  cases e : fS h r with
  | error err =>
    rw [e] at hrun
    simp only [Except.bind] at hrun
    exact Except.noConfusion hrun
  | ok s =>
    rw [e] at hrun
    simp only [Except.bind] at hrun
    obtain ⟨hle1, hr1, hp1⟩ := hf h r s.1 s.2 e
    obtain ⟨hle2, hr2, hp2⟩ := hg s.1 s.2 h2 r2 hrun
    refine ⟨heapLe_trans hle1 hle2, ?_, ?_⟩
    · rcases hr2 with heq | hge
      · rcases hr1 with heq1 | hge1
        · exact Or.inl (heq.trans heq1)
        · exact Or.inr (by rw [heq]; exact hge1)
      · exact Or.inr (le_trans hle1.1 hge)
    · rw [hp1]
      simp only [Except.bind]
      exact hp2

theorem mStepS_simRel (a : MSelArg) (col : Row → Option PyVal) :
    SimRel (mStepS a col) (mStep a col) := by
  intro h r h2 r2 hstep
  cases a with
  | absent => exact Except.noConfusion hstep
  | noneVal => exact Except.noConfusion hstep
  | vals l =>
    by_cases hc : 0 < l.length ∧ PyVal.vstr "all" ∉ l
    · simp only [mStepS, if_pos hc, maskDf] at hstep
      obtain ⟨h2eq, r2eq⟩ := Prod.mk.inj (Except.ok.inj hstep)
      subst h2eq
      subst r2eq
      refine ⟨heapLe_snoc _ _, Or.inr (le_refl _), ?_⟩
      simp only [mStep, if_pos hc]
      rw [getD_snoc_self]
    · simp only [mStepS, if_neg hc] at hstep
      obtain ⟨h2eq, r2eq⟩ := Prod.mk.inj (Except.ok.inj hstep)
      subst h2eq
      subst r2eq
      exact ⟨heapLe_refl _, Or.inl rfl, by simp only [mStep, if_neg hc]⟩

theorem distStepS_simRel (amin amax : BoundArg) :
    SimRel (distStepS amin amax) (distStep amin amax) := by
  intro h r h2 r2 hstep
  cases hm : floatOfArg amin with
  | error e =>
    rw [distStepS, hm] at hstep
    exact Except.noConfusion hstep
  | ok m =>
    cases hM : floatOfArg amax with
    | error e =>
      rw [distStepS, hm, hM] at hstep
      exact Except.noConfusion hstep
    | ok bM =>
      rw [distStepS, hm, hM] at hstep
      simp only [maskDf] at hstep
      obtain ⟨h2eq, r2eq⟩ := Prod.mk.inj (Except.ok.inj hstep)
      subst h2eq
      subst r2eq
      refine ⟨heapLe_trans (heapLe_snoc _ _) (heapLe_snoc _ _),
        Or.inr (by simp), ?_⟩
      rw [distStep, hm, hM]
      rw [getD_snoc_self, getD_snoc_self]

theorem dateStepS_simRel (a : BoundArg) (p : Nat → Row → Bool) :
    SimRel (dateStepS a p) (dateStep a p) := by
  intro h r h2 r2 hstep
  cases a with
  | absent => exact Except.noConfusion hstep
  | noneVal =>
    simp only [dateStepS] at hstep
    obtain ⟨h2eq, r2eq⟩ := Prod.mk.inj (Except.ok.inj hstep)
    subst h2eq
    subst r2eq
    exact ⟨heapLe_refl _, Or.inl rfl, rfl⟩
  | val v =>
    cases hp : parseDateArg v with
    | some d0 =>
      simp only [dateStepS, hp, maskDf] at hstep
      obtain ⟨h2eq, r2eq⟩ := Prod.mk.inj (Except.ok.inj hstep)
      subst h2eq
      subst r2eq
      refine ⟨heapLe_snoc _ _, Or.inr (le_refl _), ?_⟩
      simp only [dateStep, hp]
      rw [getD_snoc_self]
    | none =>
      simp only [dateStepS, hp] at hstep
      obtain ⟨h2eq, r2eq⟩ := Prod.mk.inj (Except.ok.inj hstep)
      subst h2eq
      subst r2eq
      exact ⟨heapLe_refl _, Or.inl rfl, by simp only [dateStep, hp]⟩

/-- C9 (confirmed): `filter_data` is pure with respect to its input frame.
At the heap level — where `df.copy()` and every mask selection allocate —
a successful run leaves every pre-existing frame untouched (in particular
the input frame `r`, read back cell for cell), returns a reference
distinct from the input, and the frame it returns holds exactly the
value-level `filter_data` result: a new derived copy. -/
theorem filter_data_no_mutation (h : Heap) (r : Nat) (fs : FilterSet)
    (h2 : Heap) (r2 : Nat) (hr : r < h.length)
    (hrun : filter_dataS h r fs = .ok (h2, r2)) :
    h2.getD r [] = h.getD r [] ∧ r2 ≠ r ∧
      filter_data (h.getD r []) fs = .ok (h2.getD r2 []) := by
  have hsim :=
    simRel_bind _ _ _ _ (mStepS_simRel fs.year yearCol)
      (simRel_bind _ _ _ _ (mStepS_simRel fs.airline airlineCol)
        (simRel_bind _ _ _ _ (mStepS_simRel fs.destination_airport destCol)
          (simRel_bind _ _ _ _ (mStepS_simRel fs.month monthNameCol)
            (simRel_bind _ _ _ _ (mStepS_simRel fs.day_of_week dayOfWeekCol)
              (simRel_bind _ _ _ _ (mStepS_simRel fs.time_period timePeriodCol)
                (simRel_bind _ _ _ _
                  (mStepS_simRel fs.delay_category delayCategoryCol)
                  (simRel_bind _ _ _ _
                    (distStepS_simRel fs.flight_distance_min
                      fs.flight_distance_max)
                    (simRel_bind _ _ _ _
                      (dateStepS_simRel fs.date_start datePredGe)
                      (dateStepS_simRel fs.date_end datePredLe)))))))))
  rw [filter_dataS] at hrun
  simp only [copyDf] at hrun
  obtain ⟨hle, hror, hpure⟩ :=
    hsim (h ++ [h.getD r []]) h.length h2 r2 hrun
  have hx : (h ++ [h.getD r []]).getD h.length [] = h.getD r [] :=
    getD_snoc_self h _
  rw [hx] at hpure
  refine ⟨?_, ?_, hpure⟩
  · have h1 : h2.getD r [] = (h ++ [h.getD r []]).getD r [] :=
      hle.2 r (by simp; omega)
    rw [h1]
    exact List.getD_append h _ [] r hr
  · rcases hror with heq | hge
    · omega
    · have : h.length + 1 ≤ r2 := by simpa using hge
      omega

/-- Witness for C9: running the heap-level pipeline on a one-frame heap
holding `[rA, rB]` with the unconstrained filter set leaves frame 0
untouched, returns the fresh reference 3, and frame 3 holds the pure
`filter_data` result. -/
theorem filter_data_no_mutation_witness :
    ([[rA, rB], [rA, rB], [rA, rB], [rA, rB]] : Heap).getD 0 [] = [rA, rB] ∧
      (3 : Nat) ≠ 0 ∧
      filter_data [rA, rB] fsAll =
        .ok (([[rA, rB], [rA, rB], [rA, rB], [rA, rB]] : Heap).getD 3 []) :=
  filter_data_no_mutation [[rA, rB]] 0 fsAll
    [[rA, rB], [rA, rB], [rA, rB], [rA, rB]] 3 (by decide) (by decide)

end DCAFlights
